import Mathlib

/-!
# Verification of the AI Study Plan Generator allocation engine

Shallow embedding of `src/study_plan_generator.py`. Python floats are
modelled as exact rationals (`ℚ`); `round(x, 2)` is modelled as rounding
`x * 100` to the nearest integer and dividing by `100`. Topics are records;
the in-place dict mutation of `calculate_weights` is modelled by producing
a new record carrying the extra `weight` and `proportion` fields. The plan
dict (keyed `1..days` in insertion order) is modelled as an association
list of `(day, sessions)` pairs.
-/

namespace StudyPlan

/-- A topic as collected by `collect_user_input`: name, difficulty, priority. -/
structure Topic where
  name : String
  difficulty : Int
  priority : Int
deriving Repr, DecidableEq

/-- A topic after `calculate_weights` has attached `weight` and `proportion`. -/
structure WeightedTopic where
  name : String
  difficulty : Int
  priority : Int
  weight : Int
  proportion : ℚ
deriving Repr, DecidableEq

/-- The per-topic score `t["weight"] = t["difficulty"] + t["priority"]`. -/
def topicWeight (t : Topic) : Int :=
  t.difficulty + t.priority

/-- Embedding of `calculate_weights`: attach `weight = difficulty + priority`
to each topic, total the weights, replace a zero total by 1, and attach
`proportion = weight / total_weight`. -/
def calculate_weights (topics : List Topic) : List WeightedTopic :=
  let total_weight0 := (topics.map topicWeight).sum
  let total_weight := if total_weight0 = 0 then 1 else total_weight0
  topics.map fun t =>
    { name := t.name
      difficulty := t.difficulty
      priority := t.priority
      weight := topicWeight t
      proportion := (topicWeight t : ℚ) / (total_weight : ℚ) }

/-- Python's `round(x, 2)`: round to the nearest hundredth. -/
def round2 (x : ℚ) : ℚ :=
  (round (x * 100) : ℤ) / 100

/-- A session entry `{name, hours}` of a day's plan. -/
structure Session where
  name : String
  hours : ℚ
deriving Repr, DecidableEq

/-- Embedding of `generate_daily_plan`: for each day `1..days` build the
session list, keeping for each topic `round(hours_per_day * proportion, 2)`
hours and skipping topics whose rounded hours fall below 0.25. -/
def generate_daily_plan (days : ℕ) (hours_per_day : ℚ)
    (topics : List WeightedTopic) : List (ℕ × List Session) :=
  (List.range days).map fun d =>
    let day := d + 1
    let day_plan := topics.filterMap fun t =>
      let topic_hours := round2 (hours_per_day * t.proportion)
      if topic_hours < 1/4 then none
      else some { name := t.name, hours := topic_hours }
    (day, day_plan)

/-- Tip for the band `difficulty >= 4 and priority >= 4`. -/
def tipBothHigh (topic_name : String) : String :=
  "Start your session with " ++ topic_name ++
    " while your focus is strongest. Break it into small chunks."

/-- Tip for the band `difficulty >= 4` (priority below 4). -/
def tipDifficultyHigh (topic_name : String) : String :=
  topic_name ++
    " is challenging. Try active recall and short review blocks instead of long passive reading."

/-- Tip for the band `priority >= 4` (difficulty below 4). -/
def tipPriorityHigh (topic_name : String) : String :=
  topic_name ++ " matters a lot. Make sure you review it briefly at the end of the day."

/-- Tip for the band where neither difficulty nor priority reaches 4. -/
def tipNeitherHigh (topic_name : String) : String :=
  "Keep " ++ topic_name ++ " steady and consistent. A little progress each day will stack up."

/-- Embedding of `simple_ai_tip`: a cascade of threshold tests on
difficulty and priority choosing one of four tip strings. -/
def simple_ai_tip (topic_name : String) (difficulty priority : Int) : String :=
  if difficulty ≥ 4 ∧ priority ≥ 4 then tipBothHigh topic_name
  else if difficulty ≥ 4 then tipDifficultyHigh topic_name
  else if priority ≥ 4 then tipPriorityHigh topic_name
  else tipNeitherHigh topic_name

/-- The tip lookup of `print_plan`: find the first topic whose name equals
the session's name and derive the tip from that topic; empty tip if none. -/
def tipFor (topics : List WeightedTopic) (s : Session) : String :=
  match topics.find? (fun t => t.name == s.name) with
  | some t => simple_ai_tip t.name t.difficulty t.priority
  | none => ""

/-- Dividing every entry of a list by a constant divides its sum. -/
theorem list_sum_map_div (l : List ℚ) (c : ℚ) :
    (l.map fun x => x / c).sum = l.sum / c := by
  induction l with
  | nil => simp
  | cons x xs ih => simp [ih, add_div]

/-- With every difficulty and priority at least 1 and at least one topic,
the total weight is positive. -/
theorem total_weight_pos (topics : List Topic) (hne : topics ≠ [])
    (hpos : ∀ t ∈ topics, 1 ≤ t.difficulty ∧ 1 ≤ t.priority) :
    0 < (topics.map topicWeight).sum := by
  apply List.sum_pos
  · intro x hx
    obtain ⟨t, ht, rfl⟩ := List.mem_map.mp hx
    have h := hpos t ht
    simp only [topicWeight]
    omega
  · simpa using hne

/-- Claim C2: each computed weight is the topic's difficulty plus its
priority, and with difficulty and priority in [1,5] it lies in [2,10];
stated positionally via `Forall₂` over the input and output lists. -/
theorem calculate_weights_weight_bounds (topics : List Topic)
    (hrange : ∀ t ∈ topics,
      1 ≤ t.difficulty ∧ t.difficulty ≤ 5 ∧ 1 ≤ t.priority ∧ t.priority ≤ 5) :
    List.Forall₂
      (fun t wt => wt.name = t.name ∧ wt.weight = t.difficulty + t.priority ∧
        2 ≤ wt.weight ∧ wt.weight ≤ 10)
      topics (calculate_weights topics) := by
  rw [calculate_weights]
  rw [List.forall₂_map_right_iff]
  rw [List.forall₂_same]
  intro t ht
  have h := hrange t ht
  refine ⟨rfl, rfl, ?_, ?_⟩ <;> simp only [topicWeight] <;> omega

/-- Claim C3: for a non-empty topic list with difficulties and priorities
in [1,5], the proportions computed by `calculate_weights` sum to exactly 1
in exact rational arithmetic. -/
theorem proportions_sum_to_one (topics : List Topic) (hne : topics ≠ [])
    (hrange : ∀ t ∈ topics,
      1 ≤ t.difficulty ∧ t.difficulty ≤ 5 ∧ 1 ≤ t.priority ∧ t.priority ≤ 5) :
    ((calculate_weights topics).map fun t => t.proportion).sum = 1 := by
  have hpos : 0 < (topics.map topicWeight).sum :=
    total_weight_pos topics hne fun t ht => ⟨(hrange t ht).1, (hrange t ht).2.2.1⟩
  have hW : (((topics.map topicWeight).sum : ℤ) : ℚ) ≠ 0 := by
    exact_mod_cast hpos.ne'
  rw [calculate_weights]
  simp only [if_neg hpos.ne', List.map_map]
  have hcomp : ((fun t : WeightedTopic => t.proportion) ∘ fun t : Topic =>
      ({ name := t.name, difficulty := t.difficulty, priority := t.priority,
         weight := topicWeight t,
         proportion := (topicWeight t : ℚ) / (((topics.map topicWeight).sum : ℤ) : ℚ) } :
        WeightedTopic))
      = fun t : Topic => ((topicWeight t : ℤ) : ℚ) / (((topics.map topicWeight).sum : ℤ) : ℚ) := rfl
  rw [hcomp]
  have hsplit : (fun t : Topic =>
      ((topicWeight t : ℤ) : ℚ) / (((topics.map topicWeight).sum : ℤ) : ℚ))
      = (fun x : ℚ => x / (((topics.map topicWeight).sum : ℤ) : ℚ)) ∘
        fun t : Topic => ((topicWeight t : ℤ) : ℚ) := rfl
  rw [hsplit, ← List.map_map, list_sum_map_div]
  rw [div_eq_one_iff_eq hW, Int.cast_list_sum (topics.map topicWeight), List.map_map]
  rfl

/-- Claim C7: allocation is deterministic — identical inputs to the weight
computation followed by plan generation yield identical plans. -/
theorem allocation_deterministic (days₁ days₂ : ℕ) (hours₁ hours₂ : ℚ)
    (topics₁ topics₂ : List Topic)
    (hdays : days₁ = days₂) (hhours : hours₁ = hours₂) (htopics : topics₁ = topics₂) :
    generate_daily_plan days₁ hours₁ (calculate_weights topics₁) =
      generate_daily_plan days₂ hours₂ (calculate_weights topics₂) := by
  subst hdays; subst hhours; subst htopics; rfl

/-- Claim C7 witness. -/
theorem allocation_deterministic_witness :
    generate_daily_plan 2 4 (calculate_weights [⟨"A", 5, 5⟩]) =
      generate_daily_plan 2 4 (calculate_weights [⟨"A", 5, 5⟩]) :=
  allocation_deterministic 2 2 4 4 [⟨"A", 5, 5⟩] [⟨"A", 5, 5⟩] rfl rfl rfl

/-- Claim C8: the proportion division is guarded — a zero total weight is
replaced by 1 — and under the validated ranges the zero branch cannot fire,
so every proportion divides by the true, non-zero total weight. -/
theorem total_weight_guard (topics : List Topic) (hne : topics ≠ [])
    (hpos : ∀ t ∈ topics, 1 ≤ t.difficulty ∧ 1 ≤ t.priority) :
    (∀ ts : List Topic, (ts.map topicWeight).sum = 0 →
      calculate_weights ts = ts.map fun t =>
        { name := t.name, difficulty := t.difficulty, priority := t.priority,
          weight := topicWeight t, proportion := (topicWeight t : ℚ) / (1 : ℚ) }) ∧
    (topics.map topicWeight).sum ≠ 0 ∧
    calculate_weights topics = topics.map fun t =>
      { name := t.name, difficulty := t.difficulty, priority := t.priority,
        weight := topicWeight t,
        proportion := (topicWeight t : ℚ) / (((topics.map topicWeight).sum : ℤ) : ℚ) } := by
  refine ⟨?_, ?_, ?_⟩
  · intro ts hts
    rw [calculate_weights]
    simp [hts]
  · exact (total_weight_pos topics hne hpos).ne'
  · rw [calculate_weights]
    simp [if_neg (total_weight_pos topics hne hpos).ne']

/-- Claim C1: in any day's session list, a topic contributes a session
exactly when its rounded hours reach the 0.25 threshold; a present session
carries those rounded hours, and every session in the list comes from some
topic and is at least 0.25 hours. -/
theorem session_iff_threshold (days : ℕ) (hours_per_day : ℚ)
    (topics : List WeightedTopic) (d : ℕ) (sessions : List Session)
    (hmem : (d, sessions) ∈ generate_daily_plan days hours_per_day topics) :
    (∀ t ∈ topics,
      (1/4 ≤ round2 (hours_per_day * t.proportion) ↔
        ∃ s ∈ sessions, s.name = t.name ∧
          s.hours = round2 (hours_per_day * t.proportion))) ∧
    ∀ s ∈ sessions, 1/4 ≤ s.hours ∧
      ∃ t ∈ topics, s.name = t.name ∧
        s.hours = round2 (hours_per_day * t.proportion) := by
  simp only [generate_daily_plan, List.mem_map, List.mem_range] at hmem
  obtain ⟨a, -, heq⟩ := hmem
  rw [Prod.mk.injEq] at heq
  obtain ⟨-, hsess⟩ := heq
  subst hsess
  constructor
  · intro t ht
    constructor
    · intro hge
      refine ⟨⟨t.name, round2 (hours_per_day * t.proportion)⟩, ?_, rfl, rfl⟩
      exact List.mem_filterMap.mpr ⟨t, ht, by rw [if_neg (not_lt.mpr hge)]⟩
    · rintro ⟨s, hs, -, hhours⟩
      obtain ⟨b, -, hfb⟩ := List.mem_filterMap.mp hs
      rw [Option.ite_none_left_eq_some, Option.some.injEq] at hfb
      obtain ⟨hge, rfl⟩ := hfb
      rw [← hhours]
      exact not_lt.mp hge
  · intro s hs
    obtain ⟨b, hb, hfb⟩ := List.mem_filterMap.mp hs
    rw [Option.ite_none_left_eq_some, Option.some.injEq] at hfb
    obtain ⟨hge, rfl⟩ := hfb
    exact ⟨not_lt.mp hge, b, hb, rfl, rfl⟩

/-- Claim C1 witness. -/
theorem session_iff_threshold_witness :
    (1/4 : ℚ) ≤ round2 (4 * (5/6)) ↔
      ∃ s ∈ [({ name := "A", hours := 333/100 } : Session)], s.name = "A" ∧
        s.hours = round2 (4 * (5/6)) := by
  have h := session_iff_threshold 1 4
    [{ name := "A", difficulty := 5, priority := 5, weight := 10, proportion := 5/6 }]
    1 [{ name := "A", hours := 333/100 }] (by
      simp only [generate_daily_plan, round2, round_eq, List.range_succ]
      norm_num [List.filterMap_cons])
  exact h.1 ⟨"A", 5, 5, 10, 5/6⟩ (List.mem_singleton.mpr rfl)

/-- Claim C4: the plan has an entry for every day 1..N, and the session
lists of any two entries are identical. -/
theorem plan_covers_days_uniformly (days : ℕ) (hours_per_day : ℚ)
    (topics : List WeightedTopic) (hdays : 1 ≤ days) :
    (∀ d, 1 ≤ d → d ≤ days →
      ∃ sessions, (d, sessions) ∈ generate_daily_plan days hours_per_day topics) ∧
    ∀ p ∈ generate_daily_plan days hours_per_day topics,
      ∀ q ∈ generate_daily_plan days hours_per_day topics, p.2 = q.2 := by
  constructor
  · intro d h1 h2
    refine ⟨topics.filterMap fun t =>
      if round2 (hours_per_day * t.proportion) < 1/4 then none
      else some { name := t.name, hours := round2 (hours_per_day * t.proportion) }, ?_⟩
    apply List.mem_map.mpr
    refine ⟨d - 1, List.mem_range.mpr (by omega), ?_⟩
    simp only [Prod.mk.injEq]
    exact ⟨by omega, trivial⟩
  · intro p hp q hq
    simp only [generate_daily_plan, List.mem_map] at hp hq
    obtain ⟨a, -, ha⟩ := hp
    obtain ⟨b, -, hb⟩ := hq
    rw [← ha, ← hb]

/-- Claim C4 witness. -/
theorem plan_covers_days_uniformly_witness :
    ∃ sessions, (2, sessions) ∈ generate_daily_plan 2 4 ([] : List WeightedTopic) :=
  (plan_covers_days_uniformly 2 4 [] (by decide)).1 2 (by decide) (by decide)

/-- Claim C5 counterexample: on the documented example the computed
proportions are 5/6 and 1/6, not the literal values 0.833 and 0.167. -/
theorem example_proportions_not_literal :
    ¬((calculate_weights [⟨"A", 5, 5⟩, ⟨"B", 1, 1⟩]).map (fun t => t.proportion)
        = [833/1000, 167/1000]) := by
  simp [calculate_weights, topicWeight]
  norm_num

/-- Claim C5 (amended): weights are 10 and 2, proportions are 5/6 and 1/6
(whose three-decimal roundings are 0.833 and 0.167), and both days consist
of exactly the session A at 3.33 hours followed by B at 0.67 hours. -/
theorem example_two_topic_plan :
    (calculate_weights [⟨"A", 5, 5⟩, ⟨"B", 1, 1⟩]).map (fun t => t.weight) = [10, 2] ∧
    (calculate_weights [⟨"A", 5, 5⟩, ⟨"B", 1, 1⟩]).map (fun t => t.proportion)
      = [5/6, 1/6] ∧
    (calculate_weights [⟨"A", 5, 5⟩, ⟨"B", 1, 1⟩]).map
        (fun t => ((round (t.proportion * 1000) : ℤ) : ℚ) / 1000)
      = [833/1000, 167/1000] ∧
    generate_daily_plan 2 4 (calculate_weights [⟨"A", 5, 5⟩, ⟨"B", 1, 1⟩]) =
      [(1, [⟨"A", 333/100⟩, ⟨"B", 67/100⟩]), (2, [⟨"A", 333/100⟩, ⟨"B", 67/100⟩])] := by
  refine ⟨?_, ?_, ?_, ?_⟩
  · simp [calculate_weights, topicWeight]
  · simp [calculate_weights, topicWeight]
    norm_num
  · simp [calculate_weights, topicWeight, round_eq]
    norm_num
  · simp [generate_daily_plan, calculate_weights, topicWeight, round2,
      List.range_succ, round_eq]
    norm_num [List.filterMap_cons]

/-- Claim C6: a single topic with difficulty 1 and priority 1 gets
proportion 1, its rounded hours at 0.2 hours/day are 0.2, below the 0.25
threshold, so every day of any plan for it is an empty session list. -/
theorem single_small_topic_empty_days (days : ℕ) :
    ((calculate_weights [⟨"T", 1, 1⟩]).map fun t => t.proportion) = [1] ∧
    round2 ((1/5) * 1) = 1/5 ∧ ((1/5 : ℚ) < 1/4) ∧
    ∀ p ∈ generate_daily_plan days (1/5) (calculate_weights [⟨"T", 1, 1⟩]),
      p.2 = [] := by
  refine ⟨?_, ?_, ?_, ?_⟩
  · simp [calculate_weights, topicWeight]
  · simp [round2, round_eq]
    norm_num
  · norm_num
  · intro p hp
    simp only [generate_daily_plan, List.mem_map] at hp
    obtain ⟨a, -, ha⟩ := hp
    rw [← ha]
    simp [calculate_weights, topicWeight, round2, round_eq]
    norm_num [List.filterMap_cons]

/-- Claim C6 witness. -/
theorem single_small_topic_empty_days_witness :
    (1, ([] : List Session)).2 = [] :=
  (single_small_topic_empty_days 1).2.2.2 (1, []) (by
    simp [generate_daily_plan, calculate_weights, topicWeight, round2,
      List.range_succ, round_eq]
    norm_num [List.filterMap_cons])

/-- Appending a topic name leaves each tip's length as the name's length
plus a band-specific constant. -/
theorem tip_lengths (n : String) :
    (tipBothHigh n).length = n.length + 83 ∧
    (tipDifficultyHigh n).length = n.length + 91 ∧
    (tipPriorityHigh n).length = n.length + 70 ∧
    (tipNeitherHigh n).length = n.length + 70 := by
  have e1 : "Start your session with ".length = 24 := rfl
  have e2 : " while your focus is strongest. Break it into small chunks.".length = 59 := rfl
  have e3 : " is challenging. Try active recall and short review blocks instead of long passive reading.".length = 91 := rfl
  have e4 : " matters a lot. Make sure you review it briefly at the end of the day.".length
      = 70 := rfl
  have e5 : "Keep ".length = 5 := rfl
  have e6 : " steady and consistent. A little progress each day will stack up.".length
      = 65 := rfl
  refine ⟨?_, ?_, ?_, ?_⟩ <;>
    simp only [tipBothHigh, tipDifficultyHigh, tipPriorityHigh, tipNeitherHigh,
      String.length_append, e1, e2, e3, e4, e5, e6] <;> omega

/-- The priority-high and neither-high tips differ for every name: only the
latter contains the character K (in its "Keep " prefix). -/
theorem tipPriorityHigh_ne_tipNeitherHigh (n : String) :
    tipPriorityHigh n ≠ tipNeitherHigh n := by
  intro h
  have hd := congrArg String.data h
  simp only [tipPriorityHigh, tipNeitherHigh, String.data_append] at hd
  have hc := congrArg (List.count 'K') hd
  simp only [List.count_append] at hc
  have h1 : List.count 'K'
      " matters a lot. Make sure you review it briefly at the end of the day.".data = 0 := by
    decide
  have h2 : List.count 'K' "Keep ".data = 1 := by decide
  have h3 : List.count 'K'
      " steady and consistent. A little progress each day will stack up.".data = 0 := by
    decide
  rw [h1, h2, h3] at hc
  omega

/-- The four band tips are pairwise distinct for every topic name. -/
theorem tips_pairwise_distinct (n : String) :
    [tipBothHigh n, tipDifficultyHigh n, tipPriorityHigh n, tipNeitherHigh n].Pairwise
      (fun a b => a ≠ b) := by
  obtain ⟨h1, h2, h3, h4⟩ := tip_lengths n
  have hlen : ∀ a b : String, a.length ≠ b.length → a ≠ b := by
    intro a b hab heq
    exact hab (congrArg String.length heq)
  refine List.Pairwise.cons ?_ (List.Pairwise.cons ?_ (List.Pairwise.cons ?_ ?_))
  · intro b hb
    simp only [List.mem_cons, List.not_mem_nil, or_false] at hb
    rcases hb with rfl | rfl | rfl <;> apply hlen <;> omega
  · intro b hb
    simp only [List.mem_cons, List.not_mem_nil, or_false] at hb
    rcases hb with rfl | rfl <;> apply hlen <;> omega
  · intro b hb
    simp only [List.mem_cons, List.not_mem_nil, or_false] at hb
    subst hb
    exact tipPriorityHigh_ne_tipNeitherHigh n
  · simp

/-- Claim C9: for difficulty and priority in [1,5], the pair falls in
exactly one of four mutually exclusive bands, the tip returned is the one
band's tip, and the four band tips are pairwise distinct. -/
theorem simple_ai_tip_four_bands (n : String) (d p : Int)
    (hd1 : 1 ≤ d) (hd5 : d ≤ 5) (hp1 : 1 ≤ p) (hp5 : p ≤ 5) :
    ((4 ≤ d ∧ 4 ≤ p) ∨ (4 ≤ d ∧ p < 4) ∨ (d < 4 ∧ 4 ≤ p) ∨ (d < 4 ∧ p < 4)) ∧
    ¬((4 ≤ d ∧ 4 ≤ p) ∧ (4 ≤ d ∧ p < 4)) ∧
    ¬((4 ≤ d ∧ 4 ≤ p) ∧ (d < 4 ∧ 4 ≤ p)) ∧
    ¬((4 ≤ d ∧ 4 ≤ p) ∧ (d < 4 ∧ p < 4)) ∧
    ¬((4 ≤ d ∧ p < 4) ∧ (d < 4 ∧ 4 ≤ p)) ∧
    ¬((4 ≤ d ∧ p < 4) ∧ (d < 4 ∧ p < 4)) ∧
    ¬((d < 4 ∧ 4 ≤ p) ∧ (d < 4 ∧ p < 4)) ∧
    (4 ≤ d ∧ 4 ≤ p → simple_ai_tip n d p = tipBothHigh n) ∧
    (4 ≤ d ∧ p < 4 → simple_ai_tip n d p = tipDifficultyHigh n) ∧
    (d < 4 ∧ 4 ≤ p → simple_ai_tip n d p = tipPriorityHigh n) ∧
    (d < 4 ∧ p < 4 → simple_ai_tip n d p = tipNeitherHigh n) ∧
    [tipBothHigh n, tipDifficultyHigh n, tipPriorityHigh n, tipNeitherHigh n].Pairwise
      (fun a b => a ≠ b) := by
  refine ⟨by omega, by omega, by omega, by omega, by omega, by omega, by omega,
    ?_, ?_, ?_, ?_, tips_pairwise_distinct n⟩
  · rintro ⟨hd, hp⟩
    rw [simple_ai_tip, if_pos ⟨hd, hp⟩]
  · rintro ⟨hd, hp⟩
    rw [simple_ai_tip, if_neg (by omega), if_pos hd]
  · rintro ⟨hd, hp⟩
    rw [simple_ai_tip, if_neg (by omega), if_neg (by omega), if_pos hp]
  · rintro ⟨hd, hp⟩
    rw [simple_ai_tip, if_neg (by omega), if_neg (by omega), if_neg (by omega)]

/-- Claim C9 witness. -/
theorem simple_ai_tip_four_bands_witness :
    simple_ai_tip "X" 5 5 = tipBothHigh "X" :=
  (simple_ai_tip_four_bands "X" 5 5 (by decide) (by decide) (by decide)
    (by decide)).2.2.2.2.2.2.2.1 ⟨by decide, by decide⟩

/-- The first-match lookup of `print_plan`: with no earlier topic of the
given name, `find?` returns the first topic carrying it. -/
theorem find_first_by_name (l rest : List WeightedTopic) (t1 : WeightedTopic)
    (nm : String) (hl : ∀ t ∈ l, t.name ≠ nm) (ht1 : t1.name = nm) :
    (l ++ t1 :: rest).find? (fun t => t.name == nm) = some t1 := by
  induction l with
  | nil =>
    simp only [List.nil_append]
    exact List.find?_cons_of_pos _ (by simp [ht1])
  | cons a as ih =>
    rw [List.cons_append, List.find?_cons_of_neg _ (by simp [hl a (by simp)])]
    exact ih fun t ht => hl t (by simp [ht])

/-- Claim C10: when two topics share a name, a session bearing that name is
rendered with the tip of the first such topic in the list, regardless of
which topic produced the session. -/
theorem tip_from_first_duplicate (l1 l2 l3 : List WeightedTopic)
    (t1 t2 : WeightedTopic) (hdup : t2.name = t1.name)
    (hfirst : ∀ t ∈ l1, t.name ≠ t1.name) (s : Session) (hs : s.name = t1.name) :
    tipFor (l1 ++ t1 :: (l2 ++ t2 :: l3)) s
      = simple_ai_tip t1.name t1.difficulty t1.priority := by
  have hfind := find_first_by_name l1 (l2 ++ t2 :: l3) t1 s.name
    (fun t ht => by rw [hs]; exact hfirst t ht) hs.symm
  simp only [tipFor, hfind]

/-- Claim C10 witness. -/
theorem tip_from_first_duplicate_witness :
    tipFor [⟨"A", 5, 5, 10, 5/6⟩, ⟨"A", 1, 1, 2, 1/6⟩] ⟨"A", 333/100⟩
      = simple_ai_tip "A" 5 5 :=
  tip_from_first_duplicate [] [] [] ⟨"A", 5, 5, 10, 5/6⟩ ⟨"A", 1, 1, 2, 1/6⟩ rfl
    (by simp) ⟨"A", 333/100⟩ rfl

/-- Claim C2 witness. -/
theorem calculate_weights_weight_bounds_witness :
    List.Forall₂
      (fun (t : Topic) (wt : WeightedTopic) =>
        wt.name = t.name ∧ wt.weight = t.difficulty + t.priority ∧
        2 ≤ wt.weight ∧ wt.weight ≤ 10)
      ([⟨"A", 5, 5⟩] : List Topic) (calculate_weights [⟨"A", 5, 5⟩]) :=
  calculate_weights_weight_bounds [⟨"A", 5, 5⟩] (by decide)

/-- Claim C3 witness. -/
theorem proportions_sum_to_one_witness :
    ((calculate_weights [⟨"A", 5, 5⟩]).map fun t => t.proportion).sum = 1 :=
  proportions_sum_to_one [⟨"A", 5, 5⟩] (by decide) (by decide)

/-- Claim C8 witness. -/
theorem total_weight_guard_witness :
    (([⟨"A", 5, 5⟩] : List Topic).map topicWeight).sum ≠ 0 :=
  (total_weight_guard [⟨"A", 5, 5⟩] (by decide) (by decide)).2.1

end StudyPlan
